import Mathlib

/-!
Verification of the weekly usage accounting and limit-enforcement logic of the
nutrition-helper application.

The development shallowly embeds, in Lean:

* the proleptic-Gregorian calendar arithmetic needed to interpret dates
  (day numbers counted from 1970-01-01, Howard Hinnant's civil-calendar
  algorithms);
* the week-bucketing expression of the SQL views `weekly_meal_usage` and
  `weekly_tag_usage` from migration `20251117000002_fix_monday_weeks.sql`:
  `strftime('%Y-', date(date,'-1 day')) || printf('%02d', CAST(strftime('%W',
  date(date,'-1 day')) AS INTEGER))`, where SQLite's `%W` is
  `(nDay + 7 - wd) / 7` with `nDay` the 0-based day of year and `wd` the
  Monday-based weekday (0 = Monday), exactly as in SQLite's `date.c`;
* the frontend `getCurrentWeek` helper of `MealSelectionModal.tsx` /
  `OptionSelectionModal.tsx`, including its use of JavaScript `Date`
  (epoch milliseconds plus a local-offset function, so that behaviour around
  daylight-saving transitions is representable);
* the view-backed usage counting, the `usage?.usage_count || 0` coercions of
  the loaders, `getTemplateUsage`, and `isExhausted`;
* a spec-modelled version of the tag-suggestion evaluation (the Rust
  `validate_entry` ValidationService, which is not part of the TypeScript/SQL
  sources; only its `api.ts` declaration and a test mock appear there).
-/

namespace NutritionHelper

/-- A calendar date (proleptic Gregorian), as stored in the `date` column of
`meal_entries` (ISO `YYYY-MM-DD` strings denote exactly such dates). -/
structure CivilDate where
  year : Int
  month : Int
  day : Int
deriving DecidableEq, Repr

/-- Number of days from 1970-01-01 to the given civil date (negative for
earlier dates). Hinnant's `days_from_civil` algorithm; this is the day-number
line that SQLite's julian-day arithmetic and JavaScript's epoch arithmetic
both move along. -/
def daysFromCivil (c : CivilDate) : Int :=
  let y := if c.month ≤ 2 then c.year - 1 else c.year
  let era : Int := (if 0 ≤ y then y else y - 399) / 400
  let yoe : Int := y - era * 400
  let mp : Int := (c.month + 9) % 12
  let doy : Int := (153 * mp + 2) / 5 + c.day - 1
  let doe : Int := yoe * 365 + yoe / 4 - yoe / 100 + doy
  era * 146097 + doe - 719468

/-- Civil date of the given day number (inverse of `daysFromCivil`);
Hinnant's `civil_from_days` algorithm. -/
def civilFromDays (z0 : Int) : CivilDate :=
  let z := z0 + 719468
  let era : Int := (if 0 ≤ z then z else z - 146096) / 146097
  let doe : Int := z - era * 146097
  let yoe : Int := (doe - doe / 1460 + doe / 36524 - doe / 146096) / 365
  let y : Int := yoe + era * 400
  let doy : Int := doe - (365 * yoe + yoe / 4 - yoe / 100)
  let mp : Int := (5 * doy + 2) / 153
  let d : Int := doy - (153 * mp + 2) / 5 + 1
  let m : Int := if mp < 10 then mp + 3 else mp - 9
  ⟨if m ≤ 2 then y + 1 else y, m, d⟩

/-- Sunday-based weekday (0 = Sunday … 6 = Saturday) of a day number;
1970-01-01 was a Thursday. This is JavaScript's `Date.prototype.getDay`. -/
def weekdaySun (days : Int) : Int := (days + 4) % 7

/-- Monday-based weekday (0 = Monday … 6 = Sunday) of a day number. This is
the `wd` used by SQLite's `%W` in `date.c`. -/
def mondayWd (days : Int) : Int := (days + 3) % 7

/-- Day number of the Monday that starts the Monday-to-Sunday week containing
the given date. Two dates lie in the same Monday-anchored 7-day window iff
their `mondayOfDate` values are equal. -/
def mondayOfDate (c : CivilDate) : Int :=
  let n := daysFromCivil c
  n - mondayWd n

/-- SQLite `strftime('%W', d)` for the date with day number `dnum`:
`(nDay + 7 - wd) / 7` where `nDay` is the 0-based day of year and `wd` the
Monday-based weekday, as computed in SQLite's `date.c`. -/
def sqliteWeekNumOfDay (dnum : Int) : Int :=
  let c := civilFromDays dnum
  (dnum - daysFromCivil ⟨c.year, 1, 1⟩ + 7 - mondayWd dnum) / 7

/-- Zero-padding to two digits, as done by `printf('%02d', …)` in the view
and `padStart(2, '0')` in the frontend. -/
def pad2 (n : Int) : String :=
  if 0 ≤ n ∧ n < 10 then "0" ++ toString n else toString n

/-- Week string of the SQL views (migration `20251117000002_fix_monday_weeks.sql`):
`strftime('%Y-', date(date,'-1 day')) || printf('%02d', CAST(strftime('%W',
date(date,'-1 day')) AS INTEGER))` — shift the entry date back one day, then
take that date's year and its `%W` week number. -/
def sqlWeek (c : CivilDate) : String :=
  let sn := daysFromCivil c - 1
  toString (civilFromDays sn).year ++ "-" ++ pad2 (sqliteWeekNumOfDay sn)

/-- Core of the frontend `getCurrentWeek` as a function of the local day
number of the instant at which it runs: the shifted date is the previous day
number, the year and `dayOfYear` are read off that shifted date, and the week
number is `Math.floor((dayOfYear + jan1.getDay()) / 7)`.
`getCurrentWeek` factors through this function whenever the local UTC offset
is constant (no daylight-saving jump); see `getCurrentWeek_fixed_offset`. -/
def weekFromLocalDay (dnum : Int) : String :=
  let sDate := civilFromDays (dnum - 1)
  let jan1Days := daysFromCivil ⟨sDate.year, 1, 1⟩
  let dayOfYr := dnum - 1 - jan1Days
  let weekNumber := (dayOfYr + weekdaySun jan1Days) / 7
  toString sDate.year ++ "-" ++ pad2 weekNumber

/-- Frontend week string as a function of the calendar date alone: the value
`getCurrentWeek()` produces when it runs on calendar date `c` in a
fixed-offset (no daylight-saving) environment. -/
def jsWeekOfDate (c : CivilDate) : String :=
  weekFromLocalDay (daysFromCivil c)

/-- C1: the migrations and the frontend comments promise Monday-to-Sunday
weeks, and the claim asserts `week_key(2024-01-01 Mon) = week_key(2024-01-07
Sun) ≠ week_key(2024-01-08 Mon)`. The code violates this: SQLite's `%W` is
already Monday-based, so the extra "-1 day" shift makes the views bucket
Tuesday-to-Monday windows — 2024-01-01 gets key "2023-52" while 2024-01-07
and 2024-01-08 share key "2024-01". The frontend formula likewise maps
2024-01-01 to "2023-52" and 2024-01-07 to "2024-00". This theorem evaluates
both week functions at those dates (2024-01-01 and 2024-01-07 lie in the same
Monday-anchored window, 2024-01-08 does not). -/
theorem c1_monday_window_violated :
    mondayOfDate ⟨2024, 1, 1⟩ = mondayOfDate ⟨2024, 1, 7⟩ ∧
    mondayOfDate ⟨2024, 1, 7⟩ ≠ mondayOfDate ⟨2024, 1, 8⟩ ∧
    sqlWeek ⟨2024, 1, 1⟩ = "2023-52" ∧
    sqlWeek ⟨2024, 1, 7⟩ = "2024-01" ∧
    sqlWeek ⟨2024, 1, 8⟩ = "2024-01" ∧
    sqlWeek ⟨2024, 1, 1⟩ ≠ sqlWeek ⟨2024, 1, 7⟩ ∧
    sqlWeek ⟨2024, 1, 7⟩ = sqlWeek ⟨2024, 1, 8⟩ ∧
    jsWeekOfDate ⟨2024, 1, 1⟩ = "2023-52" ∧
    jsWeekOfDate ⟨2024, 1, 7⟩ = "2024-00" ∧
    jsWeekOfDate ⟨2024, 1, 1⟩ ≠ jsWeekOfDate ⟨2024, 1, 7⟩ := by
  decide

/-- C6: the frontend `getCurrentWeek` comment says it "must match SQLite's
migration", and the claim asserts the two week bucketings agree on all dates.
They do not: the frontend formula `floor((dayOfYear + jan1.getDay()) / 7)` is
a Sunday-anchored (`%U`-style) count while SQLite's `%W` is Monday-anchored,
so on 2024-01-02 the view computes "2024-01" and the frontend "2024-00". -/
theorem c6_week_functions_disagree :
    sqlWeek ⟨2024, 1, 2⟩ = "2024-01" ∧
    jsWeekOfDate ⟨2024, 1, 2⟩ = "2024-00" ∧
    sqlWeek ⟨2024, 1, 2⟩ ≠ jsWeekOfDate ⟨2024, 1, 2⟩ := by
  decide

/-- Local day number of an instant: `t` is an epoch-milliseconds value and
`off` gives the local UTC offset in minutes as a function of the instant
(this is how a JavaScript `Date` derives its local calendar fields; a
daylight-saving timezone is an `off` that jumps at the transition instant). -/
def localDayNumber (t : Int) (off : Int → Int) : Int :=
  (t + off t * 60000) / 86400000

/-- Local calendar date of an instant, as read off a JavaScript `Date` via
`getFullYear`/`getMonth`/`getDate`. -/
def localDate (t : Int) (off : Int → Int) : CivilDate :=
  civilFromDays (localDayNumber t off)

/-- Epoch milliseconds of `new Date(year, 0, 1)` (local midnight, January 1),
resolving the offset at the nominal UTC instant of that local time. -/
def jan1EpochMs (year : Int) (off : Int → Int) : Int :=
  let nominal := daysFromCivil ⟨year, 1, 1⟩ * 86400000
  nominal - off nominal * 60000

/-- The frontend `getCurrentWeek` of `MealSelectionModal.tsx` and
`OptionSelectionModal.tsx`, as a function of the instant `t` (epoch ms of
`new Date()`) and the local offset function: shift back 24 absolute hours,
read the shifted instant's local year, build local midnight January 1 of that
year, divide-and-floor the millisecond difference to get `dayOfYear`, and
compute `Math.floor((dayOfYear + jan1.getDay()) / 7)`. -/
def getCurrentWeek (t : Int) (off : Int → Int) : String :=
  let shifted : Int := t - 24 * 60 * 60 * 1000
  let year := (localDate shifted off).year
  let jan1 := jan1EpochMs year off
  let dayOfYr := (shifted - jan1) / 86400000
  let jan1Day := weekdaySun (daysFromCivil ⟨year, 1, 1⟩)
  let weekNumber := (dayOfYr + jan1Day) / 7
  toString year ++ "-" ++ pad2 weekNumber

/-- Auxiliary: dividing out an added multiple of the divisor. -/
theorem ediv_add_mul_self (a k n : Int) (hn : n ≠ 0) :
    (a + k * n) / n = a / n + k :=
  Int.add_mul_ediv_right a k hn

/-- Under a constant offset, `getCurrentWeek` factors through the local day
number of the instant: the 24-hour shift lands on the previous local day, and
the `dayOfYear` division cancels to day-number arithmetic. -/
theorem getCurrentWeek_factors (t c : Int) :
    getCurrentWeek t (fun _ => c) = weekFromLocalDay (localDayNumber t (fun _ => c)) := by
  have hn : (86400000 : Int) ≠ 0 := by norm_num
  have hshift : (t - 24 * 60 * 60 * 1000 + c * 60000) / 86400000
      = (t + c * 60000) / 86400000 - 1 := by
    have h := ediv_add_mul_self (t + c * 60000) (-1) 86400000 hn
    have harg : t - 24 * 60 * 60 * 1000 + c * 60000
        = t + c * 60000 + (-1) * 86400000 := by ring
    rw [harg, h]
    ring
  have hdoy : ∀ J : Int,
      (t - 24 * 60 * 60 * 1000 - (J * 86400000 - c * 60000)) / 86400000
        = (t + c * 60000) / 86400000 - 1 - J := by
    intro J
    have h := ediv_add_mul_self (t + c * 60000) (-1 - J) 86400000 hn
    have harg : t - 24 * 60 * 60 * 1000 - (J * 86400000 - c * 60000)
        = t + c * 60000 + (-1 - J) * 86400000 := by ring
    rw [harg, h]
    ring
  simp only [getCurrentWeek, weekFromLocalDay, localDate, localDayNumber, jan1EpochMs,
    hshift, hdoy]

/-- Daylight-saving offset function of the US Eastern timezone around the
spring-forward transition of 2024-03-10 07:00 UTC: EST (UTC-05:00, -300
minutes) before the transition instant, EDT (UTC-04:00, -240 minutes) after. -/
def etOffset2024 (t : Int) : Int :=
  if t < daysFromCivil ⟨2024, 3, 10⟩ * 86400000 + 7 * 3600000 then -300 else -240

/-- Epoch ms of 2024-03-11 04:30 UTC, i.e. 00:30 EDT on local date 2024-03-11. -/
def dstInstantA : Int := daysFromCivil ⟨2024, 3, 11⟩ * 86400000 + 4 * 3600000 + 30 * 60000

/-- Epoch ms of 2024-03-11 16:00 UTC, i.e. 12:00 EDT on the same local date. -/
def dstInstantB : Int := daysFromCivil ⟨2024, 3, 11⟩ * 86400000 + 16 * 3600000

/-- C9, counterexample: the week key is not a function of the calendar date
alone. In US Eastern time, on the local date 2024-03-11 (the day after the
spring-forward transition), `getCurrentWeek` evaluated at 00:30 local time
subtracts 24 absolute hours and lands on 2024-03-09 (skipping the 23-hour day
2024-03-10), giving "2024-09", while evaluated at 12:00 local time of the
same calendar date it gives "2024-10". -/
theorem c9_dst_counterexample :
    localDate dstInstantA etOffset2024 = ⟨2024, 3, 11⟩ ∧
    localDate dstInstantB etOffset2024 = ⟨2024, 3, 11⟩ ∧
    getCurrentWeek dstInstantA etOffset2024 = "2024-09" ∧
    getCurrentWeek dstInstantB etOffset2024 = "2024-10" ∧
    getCurrentWeek dstInstantA etOffset2024 ≠ getCurrentWeek dstInstantB etOffset2024 := by
  decide

/-- C9, amended: in any fixed-offset (daylight-saving-free) environment the
frontend week key is a pure, total, deterministic function of the local
calendar day alone — two evaluations at any instants sharing the same local
day number, even under two different constant offsets, return the same week
key. (Near a daylight-saving transition this fails; see
`c9_dst_counterexample`.) -/
theorem c9_fixed_offset_pure (t₁ t₂ c₁ c₂ : Int)
    (h : localDayNumber t₁ (fun _ => c₁) = localDayNumber t₂ (fun _ => c₂)) :
    getCurrentWeek t₁ (fun _ => c₁) = getCurrentWeek t₂ (fun _ => c₂) := by
  rw [getCurrentWeek_factors, getCurrentWeek_factors, h]

/-- Witness for `c9_fixed_offset_pure`: two instants on the same UTC day
(offset 0), twelve hours apart. -/
theorem c9_fixed_offset_pure_witness :
    localDayNumber 19723 (fun _ => 0) = localDayNumber (19723 + 43200000) (fun _ => 0) ∧
    getCurrentWeek 19723 (fun _ => 0) = getCurrentWeek (19723 + 43200000) (fun _ => 0) :=
  ⟨by decide, c9_fixed_offset_pure 19723 (19723 + 43200000) 0 0 (by decide)⟩

/-- Row of `meal_options` (the columns the usage logic reads). -/
structure MealOption where
  id : Int
  template_id : Int
deriving DecidableEq, Repr

/-- Row of `meal_entries` (the columns the usage logic reads). -/
structure MealEntry where
  meal_option_id : Int
  date : CivilDate
  slot_type : String
  completed : Bool
deriving DecidableEq, Repr

/-- Row of the `meal_option_tags` join table. -/
structure MealOptionTag where
  meal_option_id : Int
  tag_id : Int
deriving DecidableEq, Repr

/-- Row of `tags` (the columns the usage logic reads). -/
structure Tag where
  id : Int
  name : String
  weekly_suggestion : Option Int
  parent_tag_id : Option Int
deriving DecidableEq, Repr

/-- Error value surfaced by the `api.ts` wrappers (`ApiError.message`). -/
structure ApiError where
  message : String
deriving DecidableEq, Repr

/-- Usage count of the `weekly_meal_usage` view for one (`meal_option_id`,
`week`) group: completed entries of that option whose shifted-`%W` week
string equals `week`. -/
def weeklyMealUsageCount (entries : List MealEntry) (optId : Int) (week : String) : Nat :=
  (entries.filter (fun e =>
    e.completed && e.meal_option_id == optId && sqlWeek e.date == week)).length

/-- Result of `get_weekly_usage` backed by the view: `GROUP BY` produces a row
only when at least one qualifying entry exists, so an option/week pair with no
completed entries yields no row (`null` at the API boundary). -/
def weeklyMealUsageRow (entries : List MealEntry) (optId : Int) (week : String) :
    Option Nat :=
  if weeklyMealUsageCount entries optId week = 0 then none
  else some (weeklyMealUsageCount entries optId week)

/-- Usage count of the `weekly_tag_usage` view for one (`tag_id`, `week`)
group: the `meal_entries ⋈ meal_option_tags ⋈ tags` join restricted to
completed entries, counted per join row. -/
def weeklyTagUsageCount (entries : List MealEntry) (links : List MealOptionTag)
    (tags : List Tag) (tagId : Int) (week : String) : Nat :=
  (entries.filter (fun e => e.completed && sqlWeek e.date == week)).foldl
    (fun acc e => acc + (links.filter (fun l =>
      l.meal_option_id == e.meal_option_id && l.tag_id == tagId &&
        tags.any (fun t => t.id == l.tag_id))).length) 0

/-- The `usage?.usage_count || 0` coercion used by `loadData`/`loadOptions`. -/
def usageOrZero (usage : Option Nat) : Nat :=
  match usage with
  | none => 0
  | some n => n

/-- Per-option usage as computed inside the loaders' `try`/`catch`: a
successful lookup goes through `usage?.usage_count || 0`, any thrown error is
caught and becomes the count 0. -/
def loadedUsageCount (res : Except ApiError (Option Nat)) : Nat :=
  match res with
  | Except.error _ => 0
  | Except.ok usage => usageOrZero usage

/-- The `weeklyUsage` map built by `loadOptions`/`loadData`: one
`loadedUsageCount` entry per option, absent ids mapping to `undefined`. -/
def buildUsageMap (fetch : Int → String → Except ApiError (Option Nat))
    (options : List MealOption) (week : String) : Int → Option Nat :=
  fun oid =>
    if options.any (fun o => o.id == oid) then
      some (loadedUsageCount (fetch oid week))
    else none

/-- A backend whose `get_weekly_usage` answers from the `weekly_meal_usage`
view and never throws. -/
def storeFetch (entries : List MealEntry) :
    Int → String → Except ApiError (Option Nat) :=
  fun optId week => Except.ok (weeklyMealUsageRow entries optId week)

/-- The `getTemplateUsage` helper of `MealSelectionModal.tsx`: filter the
loaded options down to the template, return 0 when none remain, otherwise
reduce `sum + (weeklyUsage.get(opt.id) || 0)` over them. -/
def getTemplateUsage (options : List MealOption) (weeklyUsage : Int → Option Nat)
    (templateId : Int) : Nat :=
  let templateOptions := options.filter (fun o => o.template_id == templateId)
  if templateOptions.length = 0 then 0
  else templateOptions.foldl (fun sum o => sum + usageOrZero (weeklyUsage o.id)) 0

/-- The `isExhausted` expression of both modals:
`!!(template.weekly_limit && usage >= template.weekly_limit)` — `null` and
`0` are falsy, otherwise the comparison decides. -/
def isExhausted (weekly_limit : Option Int) (usage : Nat) : Bool :=
  match weekly_limit with
  | none => false
  | some l => if l = 0 then false else decide (l ≤ (usage : Int))

/-- End-to-end hard-limit evaluation as the frontend wires it: compute the
current week string from today's date via `getCurrentWeek`, build the usage
map from the backend view, sum it per template, and test `isExhausted`.
The date of the entry being added is not consulted by this check. -/
def frontendBlocked (entries : List MealEntry) (options : List MealOption)
    (templateId : Int) (weekly_limit : Option Int) (today : CivilDate) : Bool :=
  let currentWeek := jsWeekOfDate today
  isExhausted weekly_limit
    (getTemplateUsage options (buildUsageMap (storeFetch entries) options currentWeek)
      templateId)

/-- Auxiliary: a left fold accumulating `f` over a list is the accumulator
plus the sum of the mapped list. -/
theorem foldl_add_eq_sum {α : Type} (f : α → Nat) :
    ∀ (l : List α) (n : Nat), l.foldl (fun s a => s + f a) n = n + (l.map f).sum
  | [], n => by simp
  | a :: l, n => by
      simp [foldl_add_eq_sum f l (n + f a)]
      ring

/-- Auxiliary: `getTemplateUsage` is the sum, over the template's options, of
the zero-coerced per-option usage. -/
theorem getTemplateUsage_eq_sum (options : List MealOption)
    (m : Int → Option Nat) (tid : Int) :
    getTemplateUsage options m tid
      = ((options.filter (fun o => o.template_id == tid)).map
          (fun o => usageOrZero (m o.id))).sum := by
  dsimp only [getTemplateUsage]
  split
  · next h =>
      rw [List.length_eq_zero] at h
      rw [h]
      simp
  · have h2 := foldl_add_eq_sum (fun (o : MealOption) => usageOrZero (m o.id))
      (options.filter (fun o => o.template_id == tid)) 0
    simpa using h2

/-- Auxiliary: the zero-coercion of a view row recovers the view count. -/
theorem usageOrZero_row (entries : List MealEntry) (optId : Int) (week : String) :
    usageOrZero (weeklyMealUsageRow entries optId week)
      = weeklyMealUsageCount entries optId week := by
  unfold weeklyMealUsageRow
  split
  · next h => simp [usageOrZero, h]
  · rfl

/-- C7: the template-level usage is recomputed as the sum, over all options
belonging to the template, of the per-option weekly usage counts delivered by
the `weekly_meal_usage` view — not read from any stored counter. -/
theorem c7_template_usage_is_sum (entries : List MealEntry)
    (options : List MealOption) (w : String) (tid : Int) :
    getTemplateUsage options (fun oid => weeklyMealUsageRow entries oid w) tid
      = ((options.filter (fun o => o.template_id == tid)).map
          (fun o => weeklyMealUsageCount entries o.id w)).sum := by
  rw [getTemplateUsage_eq_sum]
  simp only [usageOrZero_row]

/-- Options 10 and 11 of template 1 (the hard-limit scenario). -/
def optionsC2 : List MealOption := [⟨10, 1⟩, ⟨11, 1⟩]

/-- Two completed entries on template 1's options, dated Wednesday 2024-06-12
and Thursday 2024-06-13. -/
def entriesC2 : List MealEntry :=
  [⟨10, ⟨2024, 6, 12⟩, "lunch", true⟩, ⟨11, ⟨2024, 6, 13⟩, "dinner", true⟩]

/-- C2: with `weekly_limit = 2` and exactly 2 existing completed entries on
the template's options in the candidate's week, the claim requires
blocked = true — but the evaluation run on Friday 2024-06-14 is not blocked.
The threshold logic itself is the claimed one (`isExhausted` at usage 2 with
limit 2 is true, at usage 1 false), but the frontend queries the view with
its own week string "2024-23" while the view files both entries under
"2024-24", so the counted usage is 0 and the limit never fires. -/
theorem c2_limit_check_misses_current_entries :
    (entriesC2.filter (fun e => e.completed
        && optionsC2.any (fun o => o.id == e.meal_option_id)
        && mondayOfDate e.date == mondayOfDate ⟨2024, 6, 14⟩)).length = 2 ∧
    isExhausted (some 2) 2 = true ∧
    isExhausted (some 2) 1 = false ∧
    jsWeekOfDate ⟨2024, 6, 14⟩ = "2024-23" ∧
    sqlWeek ⟨2024, 6, 12⟩ = "2024-24" ∧
    sqlWeek ⟨2024, 6, 13⟩ = "2024-24" ∧
    frontendBlocked entriesC2 optionsC2 1 (some 2) ⟨2024, 6, 14⟩ = false := by
  decide

/-- Root tag "pasta" with a weekly suggestion. -/
def tagParentC3 : Tag := ⟨1, "pasta", some 3, none⟩

/-- Child tag "pasta_integrale" whose parent is "pasta". -/
def tagChildC3 : Tag := ⟨2, "pasta_integrale", some 2, some 1⟩

/-- Tag table for the roll-up scenario. -/
def tagsC3 : List Tag := [tagParentC3, tagChildC3]

/-- Option 10 is tagged only with the child, option 11 only with the parent. -/
def linksC3 : List MealOptionTag := [⟨10, 2⟩, ⟨11, 1⟩]

/-- One completed entry on the child-only option 10. -/
def entriesChildC3 : List MealEntry := [⟨10, ⟨2024, 6, 12⟩, "lunch", true⟩]

/-- The child-only entry plus one completed entry on the parent-only
option 11, in the same week. -/
def entriesBothC3 : List MealEntry :=
  [⟨10, ⟨2024, 6, 12⟩, "lunch", true⟩, ⟨11, ⟨2024, 6, 13⟩, "dinner", true⟩]

/-- Week string of the `weekly_tag_usage` view for the scenario's entries. -/
def weekC3 : String := sqlWeek ⟨2024, 6, 12⟩

/-- C3, counterexample: the claim says one completed entry on an option
tagged only with the child makes the parent's count 1, but the
`weekly_tag_usage` view joins `meal_option_tags` directly and performs no
ancestor roll-up: the child's count is 1 and the parent's count is 0. -/
theorem c3_no_rollup_counterexample :
    weeklyTagUsageCount entriesChildC3 linksC3 tagsC3 2 weekC3 = 1 ∧
    weeklyTagUsageCount entriesChildC3 linksC3 tagsC3 1 weekC3 = 0 := by
  decide

/-- C3, amended: tag usage counts exactly the tags directly attached to the
entry's option. A child-only entry gives the child count 1 and leaves the
parent at 0; adding a parent-only entry raises the parent to 1 and leaves the
child at 1 — counting flows in neither direction along `parent_tag_id`. -/
theorem c3_direct_tags_only :
    weeklyTagUsageCount entriesChildC3 linksC3 tagsC3 2 weekC3 = 1 ∧
    weeklyTagUsageCount entriesChildC3 linksC3 tagsC3 1 weekC3 = 0 ∧
    weeklyTagUsageCount entriesBothC3 linksC3 tagsC3 1 weekC3 = 1 ∧
    weeklyTagUsageCount entriesBothC3 linksC3 tagsC3 2 weekC3 = 1 := by
  decide

/-- Error thrown by the store for a dangling reference. -/
def danglingError : ApiError := ⟨"Option 42 not found"⟩

/-- A backend on which every weekly-usage lookup fails. -/
def allErrorFetch : Int → String → Except ApiError (Option Nat) :=
  fun _ _ => Except.error danglingError

/-- C5, counterexample: the claim says a dangling reference makes evaluation
fail with a NotFound error naming the entity; instead the loaders' `catch`
turns any failed usage lookup into the count 0, the usage map records
`some 0`, and the hard-limit evaluation proceeds un-blocked. -/
theorem c5_silent_zero_counterexample :
    loadedUsageCount (Except.error danglingError) = 0 ∧
    buildUsageMap allErrorFetch optionsC2 "2024-23" 10 = some 0 ∧
    isExhausted (some 1)
      (getTemplateUsage optionsC2 (buildUsageMap allErrorFetch optionsC2 "2024-23") 1)
      = false := by
  decide

/-- C5, amended: lookup failures during evaluation are swallowed, not
surfaced: when every per-option usage lookup fails (as with dangling ids),
each count is silently coerced to 0 and the evaluation reports not-blocked
for any positive limit, rather than failing with a NotFound error. -/
theorem c5_failed_lookups_coerce_to_zero
    (fetch : Int → String → Except ApiError (Option Nat))
    (options : List MealOption) (tid : Int) (w : String) (l : Int)
    (hl : 0 < l)
    (herr : ∀ o ∈ options, ∃ err, fetch o.id w = Except.error err) :
    isExhausted (some l) (getTemplateUsage options (buildUsageMap fetch options w) tid)
      = false := by
  have hz : getTemplateUsage options (buildUsageMap fetch options w) tid = 0 := by
    rw [getTemplateUsage_eq_sum]
    apply List.sum_eq_zero
    intro x hx
    rw [List.mem_map] at hx
    obtain ⟨o, ho, rfl⟩ := hx
    have homem : o ∈ options := (List.mem_filter.mp ho).1
    obtain ⟨err, herr'⟩ := herr o homem
    have hany : options.any (fun o' => o'.id == o.id) = true := by
      rw [List.any_eq_true]
      exact ⟨o, homem, by simp⟩
    simp [buildUsageMap, hany, herr', loadedUsageCount, usageOrZero]
  rw [hz]
  simp only [isExhausted]
  split
  · rfl
  · next hne =>
      simp only [Nat.cast_zero, decide_eq_false_iff_not]
      omega

/-- Witness for `c5_failed_lookups_coerce_to_zero`: the all-failing backend
with template 1's two options and limit 1. -/
theorem c5_failed_lookups_witness :
    (0 : Int) < 1 ∧
    isExhausted (some 1)
      (getTemplateUsage optionsC2 (buildUsageMap allErrorFetch optionsC2 "2024-23") 1)
      = false :=
  ⟨by decide,
   c5_failed_lookups_coerce_to_zero allErrorFetch optionsC2 1 "2024-23" 1 (by decide)
     (fun o _ => ⟨danglingError, rfl⟩)⟩

/-- Option 10 of template 1 (the planned-entries scenario). -/
def optionsC8 : List MealOption := [⟨10, 1⟩]

/-- Five planned, uncompleted entries for option 10 on Monday 2024-01-08. -/
def plannedEntriesC8 : List MealEntry :=
  [⟨10, ⟨2024, 1, 8⟩, "breakfast", false⟩,
   ⟨10, ⟨2024, 1, 8⟩, "morning_snack", false⟩,
   ⟨10, ⟨2024, 1, 8⟩, "lunch", false⟩,
   ⟨10, ⟨2024, 1, 8⟩, "afternoon_snack", false⟩,
   ⟨10, ⟨2024, 1, 8⟩, "dinner", false⟩]

/-- The same five entries with the first one completed. -/
def completedEntriesC8 : List MealEntry :=
  [⟨10, ⟨2024, 1, 8⟩, "breakfast", true⟩,
   ⟨10, ⟨2024, 1, 8⟩, "morning_snack", false⟩,
   ⟨10, ⟨2024, 1, 8⟩, "lunch", false⟩,
   ⟨10, ⟨2024, 1, 8⟩, "afternoon_snack", false⟩,
   ⟨10, ⟨2024, 1, 8⟩, "dinner", false⟩]

/-- C8: entries with `completed = false` contribute to no weekly usage count
(prepending an uncompleted entry changes neither the per-option view count
nor the per-tag view count), and concretely: with five planned uncompleted
entries for option 10 of a template with `weekly_limit = 1`, the evaluation
on 2024-01-08 is not blocked — while completing just one of them does block,
showing the non-blocking comes from the completed filter. -/
theorem c8_uncompleted_entries_never_count (e : MealEntry)
    (entries : List MealEntry) (links : List MealOptionTag) (tags : List Tag)
    (optId tagId : Int) (w : String) (h : e.completed = false) :
    weeklyMealUsageCount (e :: entries) optId w = weeklyMealUsageCount entries optId w ∧
    weeklyTagUsageCount (e :: entries) links tags tagId w
      = weeklyTagUsageCount entries links tags tagId w ∧
    frontendBlocked plannedEntriesC8 optionsC8 1 (some 1) ⟨2024, 1, 8⟩ = false ∧
    frontendBlocked completedEntriesC8 optionsC8 1 (some 1) ⟨2024, 1, 8⟩ = true := by
  refine ⟨?_, ?_, by decide, by decide⟩
  · simp [weeklyMealUsageCount, h]
  · simp [weeklyTagUsageCount, h]

/-- An uncompleted sample entry. -/
def uncompletedSampleC8 : MealEntry := ⟨10, ⟨2024, 1, 8⟩, "lunch", false⟩

/-- Witness for `c8_uncompleted_entries_never_count`: a concrete uncompleted
entry leaves the per-option count unchanged. -/
theorem c8_uncompleted_entries_witness :
    uncompletedSampleC8.completed = false ∧
    weeklyMealUsageCount [uncompletedSampleC8] 10 "2024-01"
      = weeklyMealUsageCount [] 10 "2024-01" :=
  ⟨rfl, (c8_uncompleted_entries_never_count uncompletedSampleC8 [] [] [] 10 1
          "2024-01" rfl).1⟩

/-- Auxiliary: an option with no completed entry of its own in the queried
week has view count 0 there, whatever other options' entries exist. -/
theorem weeklyMealUsageCount_eq_zero (entries : List MealEntry) (optId : Int)
    (w : String)
    (h : ∀ e ∈ entries, e.completed = true → e.meal_option_id = optId →
      sqlWeek e.date ≠ w) :
    weeklyMealUsageCount entries optId w = 0 := by
  unfold weeklyMealUsageCount
  rw [List.length_eq_zero, List.filter_eq_nil_iff]
  intro e he
  by_cases hc : e.completed
  · by_cases hm : e.meal_option_id = optId
    · have hne := h e he hc hm
      simp [hc, hm, hne]
    · simp [hc, hm]
  · simp [hc]

/-- C10: for an option with no completed entries of its own in the queried
week, the view produces no row (`get_weekly_usage` returns null) and the
callers' `usage?.usage_count || 0` coerces that to 0; and a template none of
whose options has a completed entry in that week is never marked exhausted
for any positive limit — regardless of what completed entries other options
or templates have in the same week. -/
theorem c10_empty_week_never_blocks (entries : List MealEntry) (w : String)
    (optId : Int) (options : List MealOption) (tid : Int) (l : Int)
    (hopt : ∀ e ∈ entries, e.completed = true → e.meal_option_id = optId →
      sqlWeek e.date ≠ w)
    (htmpl : ∀ o ∈ options, o.template_id = tid →
      ∀ e ∈ entries, e.completed = true → e.meal_option_id = o.id →
        sqlWeek e.date ≠ w)
    (hl : 0 < l) :
    weeklyMealUsageRow entries optId w = none ∧
    usageOrZero (weeklyMealUsageRow entries optId w) = 0 ∧
    isExhausted (some l)
      (getTemplateUsage options (fun oid => weeklyMealUsageRow entries oid w) tid)
      = false := by
  have hrowOpt : weeklyMealUsageRow entries optId w = none := by
    simp [weeklyMealUsageRow, weeklyMealUsageCount_eq_zero entries optId w hopt]
  refine ⟨hrowOpt, by simp [hrowOpt, usageOrZero], ?_⟩
  have hz : getTemplateUsage options (fun oid => weeklyMealUsageRow entries oid w) tid
      = 0 := by
    rw [getTemplateUsage_eq_sum]
    apply List.sum_eq_zero
    intro x hx
    rw [List.mem_map] at hx
    obtain ⟨o, ho, rfl⟩ := hx
    have homem : o ∈ options := (List.mem_filter.mp ho).1
    have htid : o.template_id = tid := by
      have hb := (List.mem_filter.mp ho).2
      exact beq_iff_eq.mp hb
    have hcz := weeklyMealUsageCount_eq_zero entries o.id w
      (htmpl o homem htid)
    simp [weeklyMealUsageRow, hcz, usageOrZero]
  rw [hz]
  simp only [isExhausted]
  split
  · rfl
  · simp only [Nat.cast_zero, decide_eq_false_iff_not]
    omega

/-- Entries for the C10 witness: option 10 has one completed entry in another
week and one uncompleted entry in the queried week, while option 99 of a
different template has a completed entry in the queried week (a mixed
store). -/
def entriesC10 : List MealEntry :=
  [⟨10, ⟨2024, 1, 1⟩, "lunch", true⟩,
   ⟨10, ⟨2024, 1, 8⟩, "lunch", false⟩,
   ⟨99, ⟨2024, 1, 8⟩, "dinner", true⟩]

/-- Witness for `c10_empty_week_never_blocks`: option 10 and template 1 have
no completed entry in week "2024-01", so the lookup is null and template 1 is
not exhausted — even though option 99 of another template does have a
completed entry filed under "2024-01". -/
theorem c10_empty_week_witness :
    (∀ e ∈ entriesC10, e.completed = true → e.meal_option_id = 10 →
      sqlWeek e.date ≠ "2024-01") ∧
    weeklyMealUsageRow entriesC10 99 "2024-01" = some 1 ∧
    weeklyMealUsageRow entriesC10 10 "2024-01" = none ∧
    isExhausted (some 1)
      (getTemplateUsage optionsC8 (fun oid => weeklyMealUsageRow entriesC10 oid "2024-01") 1)
      = false := by
  have h := c10_empty_week_never_blocks entriesC10 "2024-01" 10 optionsC8 1 1
    (by decide) (by decide) (by decide)
  exact ⟨by decide, by decide, h.1, h.2.2⟩

/-- Modelled from the spec: the canonical Monday-anchored week key used by the
missing Rust ValidationService (`validate_entry`); the spec recommends keying
a week by the Monday that starts it. -/
def weekKeySpec (c : CivilDate) : Int := mondayOfDate c

/-- Modelled from the spec: the cycle-safe ancestor walk along
`parent_tag_id` of the missing ValidationService, bounded by a fuel budget as
the spec's defensive bound requires. -/
def tagAncestors (tags : List Tag) : Nat → Option Int → List Tag
  | 0, _ => []
  | _ + 1, none => []
  | fuel + 1, some pid =>
      match tags.find? (fun t => t.id == pid) with
      | none => []
      | some t => t :: tagAncestors tags fuel t.parent_tag_id

/-- Modelled from the spec: the tags the missing ValidationService examines
for a candidate's option — every directly attached tag together with all of
its ancestors. -/
def tagsToCheck (tags : List Tag) (links : List MealOptionTag) (optId : Int) :
    List Tag :=
  (links.filter (fun l => l.meal_option_id == optId)).foldr
    (fun l acc =>
      match tags.find? (fun t => t.id == l.tag_id) with
      | none => acc
      | some t => (t :: tagAncestors tags tags.length t.parent_tag_id) ++ acc) []

/-- Modelled from the spec: whether tag `tid` is `ancId` itself or a
descendant of `ancId` (so that its usage rolls up to `ancId`). -/
def isDescendantOrSelf (tags : List Tag) (ancId tid : Int) : Bool :=
  tid == ancId ||
    match tags.find? (fun t => t.id == tid) with
    | none => false
    | some t => (tagAncestors tags tags.length t.parent_tag_id).any
        (fun a => a.id == ancId)

/-- Modelled from the spec: `count_for_tag` of the missing ValidationService —
completed entries of the week whose option carries the tag directly or
carries a descendant of it. -/
def countForTagSpec (entries : List MealEntry) (links : List MealOptionTag)
    (tags : List Tag) (tagId : Int) (wk : Int) : Nat :=
  (entries.filter (fun e => e.completed && weekKeySpec e.date == wk &&
    links.any (fun l => l.meal_option_id == e.meal_option_id &&
      isDescendantOrSelf tags tagId l.tag_id))).length

/-- Modelled from the spec: `count_for_option` of the missing
ValidationService. -/
def countForOptionSpec (entries : List MealEntry) (optId : Int) (wk : Int) : Nat :=
  (entries.filter (fun e => e.completed && e.meal_option_id == optId &&
    weekKeySpec e.date == wk)).length

/-- Modelled from the spec: `count_for_template` of the missing
ValidationService — the sum of per-option counts over the template's
options. -/
def countForTemplateSpec (entries : List MealEntry) (options : List MealOption)
    (tid : Int) (wk : Int) : Nat :=
  ((options.filter (fun o => o.template_id == tid)).map
    (fun o => countForOptionSpec entries o.id wk)).sum

/-- Row of `meal_templates` (the columns the limit logic reads). -/
structure MealTemplate where
  id : Int
  weekly_limit : Option Int
deriving DecidableEq, Repr

/-- A candidate entry submitted to the evaluation (option plus date). -/
structure CandidateEntry where
  meal_option_id : Int
  date : CivilDate
deriving DecidableEq, Repr

/-- A non-blocking warning naming the tag and its suggested frequency. -/
structure SuggestionWarning where
  tag_id : Int
  tag_name : String
  suggested : Int
deriving DecidableEq, Repr

/-- Verdict of the evaluation: blocked flag, block reasons, warnings. -/
structure Verdict where
  blocked : Bool
  block_reasons : List String
  warnings : List SuggestionWarning
deriving DecidableEq, Repr

/-- Modelled from the spec: the warning pass of the missing
ValidationService — for every tag on the option and transitively every
ancestor, a warning is appended exactly when `weekly_suggestion` is set and
the existing count for that tag already reaches it. -/
def suggestionWarnings (entries : List MealEntry) (links : List MealOptionTag)
    (tags : List Tag) (optId : Int) (wk : Int) : List SuggestionWarning :=
  (tagsToCheck tags links optId).filterMap (fun t =>
    t.weekly_suggestion.bind (fun s =>
      if s ≤ (countForTagSpec entries links tags t.id wk : Int)
      then some ⟨t.id, t.name, s⟩ else none))

/-- Modelled from the spec: `evaluate(candidate_entry)` of the missing
ValidationService (`validate_entry` command) — the hard template limit blocks
when the existing template count already reaches `weekly_limit`, and the
suggestion warnings are attached without influencing the blocked flag. -/
def evaluateSpec (tags : List Tag) (links : List MealOptionTag)
    (options : List MealOption) (templates : List MealTemplate)
    (entries : List MealEntry) (cand : CandidateEntry) : Verdict :=
  let wk := weekKeySpec cand.date
  let hard :=
    match options.find? (fun o => o.id == cand.meal_option_id) with
    | none => (false, ([] : List String))
    | some o =>
        match templates.find? (fun tp : MealTemplate => tp.id == o.template_id) with
        | none => (false, [])
        | some tp =>
            match tp.weekly_limit with
            | none => (false, [])
            | some l =>
                if l ≤ (countForTemplateSpec entries options o.template_id wk : Int)
                then (true, ["Template " ++ toString tp.id ++ " weekly limit "
                              ++ toString l ++ " reached"])
                else (false, [])
  ⟨hard.1, hard.2, suggestionWarnings entries links tags cand.meal_option_id wk⟩

/-- Auxiliary: every tag returned by the ancestor walk is a row of the tag
table. -/
theorem mem_of_mem_tagAncestors (tags : List Tag) :
    ∀ (fuel : Nat) (p : Option Int) (u : Tag), u ∈ tagAncestors tags fuel p → u ∈ tags := by
  intro fuel
  induction fuel with
  | zero => intro p u hu; simp [tagAncestors] at hu
  | succ n ih =>
      intro p u hu
      cases p with
      | none => simp [tagAncestors] at hu
      | some pid =>
          simp only [tagAncestors] at hu
          split at hu
          · simp at hu
          · next t hfind =>
              rcases List.mem_cons.mp hu with h | h
              · subst h; exact List.mem_of_find?_eq_some hfind
              · exact ih _ u h

/-- Auxiliary: every tag examined by the warning pass is a row of the tag
table. -/
theorem mem_of_mem_tagsToCheck (tags : List Tag) (links : List MealOptionTag)
    (optId : Int) (u : Tag) (hu : u ∈ tagsToCheck tags links optId) : u ∈ tags := by
  unfold tagsToCheck at hu
  revert hu
  generalize links.filter (fun l => l.meal_option_id == optId) = ls
  induction ls with
  | nil => intro hu; simp at hu
  | cons l ls ih =>
      intro hu
      simp only [List.foldr_cons] at hu
      split at hu
      · exact ih hu
      · next t hfind =>
          rcases List.mem_append.mp hu with h | h
          · rcases List.mem_cons.mp h with h1 | h1
            · subst h1; exact List.mem_of_find?_eq_some hfind
            · exact mem_of_mem_tagAncestors tags _ _ u h1
          · exact ih h

/-- C4 (spec-modelled): for every tag carried by the candidate's option and
transitively every ancestor, when `weekly_suggestion` is set the evaluation's
warning for that tag is present exactly when the existing completed-entry
count for the tag in the candidate's week already reaches the suggestion
(so a suggestion of 0 warns on the very first use), and the blocked flag is
entirely independent of the tag table, so no warning ever causes a block. -/
theorem c4_suggestion_warning_iff (tags : List Tag) (links : List MealOptionTag)
    (options : List MealOption) (templates : List MealTemplate)
    (entries : List MealEntry) (cand : CandidateEntry) (t : Tag) (s : Int)
    (hids : (tags.map Tag.id).Nodup)
    (ht : t ∈ tagsToCheck tags links cand.meal_option_id)
    (hs : t.weekly_suggestion = some s) :
    (SuggestionWarning.mk t.id t.name s
        ∈ (evaluateSpec tags links options templates entries cand).warnings
      ↔ s ≤ (countForTagSpec entries links tags t.id (weekKeySpec cand.date) : Int)) ∧
    ∀ tags2 : List Tag,
      (evaluateSpec tags2 links options templates entries cand).blocked
        = (evaluateSpec tags links options templates entries cand).blocked := by
  constructor
  · have hw : (evaluateSpec tags links options templates entries cand).warnings
        = suggestionWarnings entries links tags cand.meal_option_id
            (weekKeySpec cand.date) := rfl
    rw [hw]
    unfold suggestionWarnings
    constructor
    · intro hmem
      rw [List.mem_filterMap] at hmem
      obtain ⟨t', ht', heq⟩ := hmem
      cases hsug : t'.weekly_suggestion with
      | none => rw [hsug] at heq; simp at heq
      | some s' =>
          rw [hsug, Option.some_bind] at heq
          by_cases hcond :
              s' ≤ (countForTagSpec entries links tags t'.id (weekKeySpec cand.date) : Int)
          · rw [if_pos hcond] at heq
            have hfields : t'.id = t.id ∧ t'.name = t.name ∧ s' = s := by
              have h1 := Option.some.inj heq
              exact ⟨congrArg SuggestionWarning.tag_id h1,
                     congrArg SuggestionWarning.tag_name h1,
                     congrArg SuggestionWarning.suggested h1⟩
            have hteq : t' = t := by
              have hmem1 := mem_of_mem_tagsToCheck tags links cand.meal_option_id t' ht'
              have hmem2 := mem_of_mem_tagsToCheck tags links cand.meal_option_id t ht
              exact List.inj_on_of_nodup_map hids hmem1 hmem2 hfields.1
            rw [hteq] at hcond
            rw [hfields.2.2] at hcond
            exact hcond
          · rw [if_neg hcond] at heq; simp at heq
    · intro hcond
      rw [List.mem_filterMap]
      exact ⟨t, ht, by rw [hs, Option.some_bind, if_pos hcond]⟩
  · intro tags2
    rfl

/-- Tag table for the C4 witness: one tag "mayo" suggesting zero weekly
uses. -/
def tagsC4 : List Tag := [⟨1, "mayo", some 0, none⟩]

/-- Option 10 carries the "mayo" tag. -/
def linksC4 : List MealOptionTag := [⟨10, 1⟩]

/-- Option 10 belongs to template 1. -/
def optionsC4 : List MealOption := [⟨10, 1⟩]

/-- Template 1 with no hard limit. -/
def templatesC4 : List MealTemplate := [⟨1, none⟩]

/-- A first candidate entry for option 10 with no prior entries at all. -/
def candC4 : CandidateEntry := ⟨10, ⟨2024, 6, 14⟩⟩

/-- Witness for `c4_suggestion_warning_iff`: a `weekly_suggestion` of 0, with
zero existing uses, warns on the very first candidate entry. -/
theorem c4_suggestion_warning_witness :
    (tagsC4.map Tag.id).Nodup ∧
    (⟨1, "mayo", some 0, none⟩ : Tag) ∈ tagsToCheck tagsC4 linksC4 candC4.meal_option_id ∧
    countForTagSpec [] linksC4 tagsC4 1 (weekKeySpec candC4.date) = 0 ∧
    SuggestionWarning.mk 1 "mayo" 0
      ∈ (evaluateSpec tagsC4 linksC4 optionsC4 templatesC4 [] candC4).warnings := by
  refine ⟨by decide, by decide, by decide, ?_⟩
  exact ((c4_suggestion_warning_iff tagsC4 linksC4 optionsC4 templatesC4 [] candC4
    ⟨1, "mayo", some 0, none⟩ 0 (by decide) (by decide) rfl).1).mpr (by decide)

end NutritionHelper
